import Mathlib

/-!
Verification of the plant-disease diagnosis backend's decision core.

The development shallowly embeds, over exact rationals, the ensemble
decision engine (`ai_diagnosis_ensemble.py`), the prediction pipeline of
the TensorFlow model services (`services/tf_model_service.py` and
`services/tf_model_service_old.py`, modulo the actual neural network,
which is treated as an opaque probability-vector producer), and the
test-time-augmentation fusion step.  Python floats are modelled as `ℚ`,
Python dicts keyed by class name as insertion-ordered association
lists, and fallible calls as `Except`.
-/

namespace PlantDiagnosis

/-- Source of the final diagnosis (`DiagnosisSource` enum). -/
inductive DiagnosisSource where
  | cnn
  | kimi
  | ensemble
deriving DecidableEq, Repr

/-- Dataclass `CNNPrediction`: result of the CNN model. -/
structure CNNPrediction where
  predicted_class : String
  confidence : ℚ
  top_k : List (String × ℚ)
  inference_time_ms : ℚ
deriving DecidableEq, Repr

/-- Method `CNNPrediction.get_top_confidence_gap`: difference between rank-1 and
rank-2 scores, `1.0` when fewer than two entries exist. -/
def CNNPrediction.get_top_confidence_gap (p : CNNPrediction) : ℚ :=
  if 2 ≤ p.top_k.length then
    (p.top_k.getD 0 ("", 0)).2 - (p.top_k.getD 1 ("", 0)).2
  else 1

/-- Dataclass `KimiPrediction`: result of the KIMI language model. -/
structure KimiPrediction where
  predicted_class : String
  raw_response : String
  is_uncertain : Bool
  reasoning_quality : ℚ
  response_time_ms : ℚ
deriving DecidableEq, Repr

/-- Dataclass `EnsembleResult`: the final ensemble decision. -/
structure EnsembleResult where
  final_diagnosis : String
  confidence : ℚ
  source : DiagnosisSource
  cnn_weight : ℚ
  kimi_weight : ℚ
  cnn_prediction : Option CNNPrediction
  kimi_prediction : Option KimiPrediction
  reasoning : String
  recommendations : List String
deriving DecidableEq, Repr

/-- Python's two-argument `min` on rationals (first argument on ties),
written with an explicit comparison so that it evaluates in the kernel. -/
def pymin (a b : ℚ) : ℚ := if a ≤ b then a else b

/-- Python's two-argument `max` on rationals (first argument on ties),
written with an explicit comparison so that it evaluates in the kernel. -/
def pymax (a b : ℚ) : ℚ := if b ≤ a then a else b

/-- Table `DiagnosisWeightingSystem.class_complexity`: per-class visual
difficulty table (insertion order preserved). -/
def class_complexity : List (String × ℚ) :=
  [("Powdery Mildew", 0.3),
   ("Downy Mildew", 0.6),
   ("Anthracnose", 0.5),
   ("Cercospora Leaf Spot", 0.5),
   ("Rust Disease", 0.4),
   ("White Rust Disease", 0.6),
   ("Leaf Blight", 0.4),
   ("Leaf Spot Disease", 0.5),
   ("Bemisia tabaci", 0.7),
   ("Thrips", 0.7),
   ("Leaf Miner", 0.5),
   ("Diamondback Moth", 0.6),
   ("Flea Beetle", 0.4),
   ("Common Cutworm", 0.4),
   ("Red Pumpkin Beetle", 0.5),
   ("Leafhopper", 0.6)]

/-- Lookup `self.class_complexity.get(label, 0.5)`. -/
def complexity_of (label : String) : ℚ :=
  (class_complexity.lookup label).getD 0.5

/-- Method `DiagnosisWeightingSystem.calculate_cnn_weight`. -/
def calculate_cnn_weight (cnn_pred : CNNPrediction) (image_quality : ℚ := 1) : ℚ :=
  let base_score := cnn_pred.confidence
  let separation_bonus := min (cnn_pred.get_top_confidence_gap * 0.2) 0.1
  let quality_factor := 0.7 + 0.3 * image_quality
  let complexity := complexity_of cnn_pred.predicted_class
  let complexity_factor := 1 - complexity * 0.2
  pymin ((base_score * 0.7 + separation_bonus) * quality_factor * complexity_factor) 1

/-- Method `DiagnosisWeightingSystem.calculate_kimi_weight`. -/
def calculate_kimi_weight (kimi_pred : KimiPrediction)
    (cnn_pred : Option CNNPrediction := none) : ℚ :=
  if kimi_pred.is_uncertain then 0.2
  else
    let base_score : ℚ := 0.75
    let quality_bonus := kimi_pred.reasoning_quality * 0.15
    let complexity := complexity_of kimi_pred.predicted_class
    let complexity_factor := 0.8 + complexity * 0.2
    let disagreement_penalty : ℚ :=
      match cnn_pred with
      | some c =>
          if 0.9 < c.confidence ∧ c.predicted_class ≠ kimi_pred.predicted_class
          then 0.15 else 0
      | none => 0
    pymax 0.2 (pymin ((base_score + quality_bonus) * complexity_factor - disagreement_penalty) 1)

/-- Lower-casing of one character as Python's `str.lower` acts on the
label alphabet in use (ASCII letters; Thai characters have no case). -/
def char_lower (c : Char) : Char :=
  if 'A' ≤ c ∧ c ≤ 'Z' then Char.ofNat (c.toNat + 32) else c

/-- Python's `str.lower()` on the label alphabet in use. -/
def str_lower (s : String) : String := ⟨s.data.map char_lower⟩

/-- The alias list tested by `_ensemble_both` after `.lower()`. -/
def kimi_healthy_aliases : List String :=
  ["none", "healthy", "no disease or pest found", "พืชสุขภาพดี"]

/-- Test `kimi_pred.is_uncertain or kimi_pred.predicted_class.lower() in [...]`. -/
def is_kimi_healthy (kimi_pred : KimiPrediction) : Bool :=
  kimi_pred.is_uncertain ||
    decide (str_lower kimi_pred.predicted_class ∈ kimi_healthy_aliases)

/-- The healthy sentinel label returned when KIMI's healthy verdict wins. -/
def healthy_sentinel : String := "No disease or pest found / พืชสุขภาพดี"

/-- One step of `scores[cls] = scores.get(cls, 0) + v` on an
insertion-ordered association list (Python dict semantics). -/
def add_score : List (String × ℚ) → String → ℚ → List (String × ℚ)
  | [], cls, v => [(cls, v)]
  | (a, b) :: rest, cls, v =>
      if a = cls then (a, b + v) :: rest else (a, b) :: add_score rest cls v

/-- Python's `max(scores, key=scores.get)` together with `scores[final_class]`:
first entry carrying the maximal value, in iteration order. -/
def max_by_value : List (String × ℚ) → String × ℚ
  | [] => ("", 0)
  | p :: rest =>
      let q := max_by_value rest
      if rest ≠ [] ∧ p.2 < q.2 then q else p

/-- The score map of the disagreement branch: CNN top-k contributions
then the KIMI contribution. -/
def disagreement_scores (cnn_pred : CNNPrediction) (kimi_pred : KimiPrediction)
    (cnn_weight kimi_weight : ℚ) : List (String × ℚ) :=
  let scores := cnn_pred.top_k.foldl
    (fun acc p => add_score acc p.1 (p.2 * cnn_weight)) []
  add_score scores kimi_pred.predicted_class (0.8 * kimi_weight)

/-- Method `DiagnosisWeightingSystem._ensemble_both` (rationale strings keep the
source's static text; the interpolated numbers of the f-strings are
presentation only and are elided). -/
def ensemble_both (cnn_pred : CNNPrediction) (kimi_pred : KimiPrediction)
    (image_quality : ℚ) : EnsembleResult :=
  let cnn_w := calculate_cnn_weight cnn_pred image_quality
  let kimi_w := calculate_kimi_weight kimi_pred (some cnn_pred)
  let total := cnn_w + kimi_w
  let cnn_weight := cnn_w / total
  let kimi_weight := kimi_w / total
  if is_kimi_healthy kimi_pred then
    if 0.95 < cnn_pred.confidence then
      { final_diagnosis := cnn_pred.predicted_class
        confidence := cnn_pred.confidence * 0.5
        source := .ensemble
        cnn_weight := 0.7
        kimi_weight := 0.3
        cnn_prediction := some cnn_pred
        kimi_prediction := some kimi_pred
        reasoning := "CNN มั่นใจสูงลิ่ว (>95%) ว่ามีโรค แต่ KIMI ไม่พบ (อาจเป็นภาพพืชปกติที่ CNN มองผิดพลาด ควรตรวจสอบซ้ำ)"
        recommendations := ["ตรวจสอบด้วยตาเปล่าอีกครั้ง", "CNN ขัดแย้งกับ AI อย่างรุนแรง"] }
    else
      { final_diagnosis := healthy_sentinel
        confidence := 0.85
        source := .ensemble
        cnn_weight := 0.1
        kimi_weight := 0.9
        cnn_prediction := some cnn_pred
        kimi_prediction := some kimi_pred
        reasoning := "KIMI ระบุว่าไม่พบโรค/เป็นพืชปกติ (CNN ไม่มีคลาสปกติจึงต้องตกไป)"
        recommendations := ["พืชดูมีสุขภาพดี", "หากพบความผิดปกติให้ลองถ่ายรูปซูมใกล้ๆ อีกครั้ง"] }
  else if cnn_pred.predicted_class = kimi_pred.predicted_class then
    { final_diagnosis := cnn_pred.predicted_class
      confidence := pymin 0.95 (pymax cnn_pred.confidence 0.75 + 0.15)
      source := .ensemble
      cnn_weight := cnn_weight
      kimi_weight := kimi_weight
      cnn_prediction := some cnn_pred
      kimi_prediction := some kimi_pred
      reasoning := "CNN และ KIMI ตรงกัน"
      recommendations := ["ความมั่นใจสูงมาก", "ใช้ผลนี้ได้เลย"] }
  else
    let winner := max_by_value (disagreement_scores cnn_pred kimi_pred cnn_weight kimi_weight)
    { final_diagnosis := winner.1
      confidence := winner.2
      source := .ensemble
      cnn_weight := cnn_weight
      kimi_weight := kimi_weight
      cnn_prediction := some cnn_pred
      kimi_prediction := some kimi_pred
      reasoning := "CNN vs KIMI ไม่ตรงกัน เลือกตาม weighted score"
      recommendations := ["ตรวจสอบด้วยตนเองเพิ่ม", "พิจารณาถ่ายภาพเพิ่ม"] }

/-- Method `DiagnosisWeightingSystem._cnn_only_result`. -/
def cnn_only_result (cnn_pred : CNNPrediction) : EnsembleResult :=
  let confidence :=
    if 0.85 ≤ cnn_pred.confidence then cnn_pred.confidence
    else if 0.60 ≤ cnn_pred.confidence then cnn_pred.confidence
    else cnn_pred.confidence * 0.7
  { final_diagnosis := cnn_pred.predicted_class
    confidence := confidence
    source := .cnn
    cnn_weight := 1
    kimi_weight := 0
    cnn_prediction := some cnn_pred
    kimi_prediction := none
    reasoning := "ตัดสินจาก CNN อย่างเดียว"
    recommendations := ["ใช้ผล CNN"] }

/-- Method `DiagnosisWeightingSystem._kimi_only_result`. -/
def kimi_only_result (kimi_pred : KimiPrediction) : EnsembleResult :=
  if kimi_pred.is_uncertain then
    { final_diagnosis := "No disease or pest found"
      confidence := 0.5
      source := .kimi
      cnn_weight := 0
      kimi_weight := 1
      cnn_prediction := none
      kimi_prediction := some kimi_pred
      reasoning := "KIMI ไม่พบความผิดปกติที่ชัดเจน"
      recommendations := ["ถ่ายภาพใหม่ที่ชัดกว่า", "ตรวจสอบภาพด้วยตนเอง"] }
  else
    { final_diagnosis := kimi_pred.predicted_class
      confidence := 0.75
      source := .kimi
      cnn_weight := 0
      kimi_weight := 1
      cnn_prediction := none
      kimi_prediction := some kimi_pred
      reasoning := "ใช้ KIMI อย่างเดียว (ไม่มี CNN)"
      recommendations := ["ใช้ผล KIMI", "แนะนำให้มี CNN สำหรับความเร็ว"] }

/-- Failure modes of `decide_ensemble`.  `attributeError` models the
uncaught Python `AttributeError` raised when `_ensemble_both` receives
`None` and dereferences `cnn_pred.confidence`.  `noInputProvided` is
Modelled from the spec: the distinct "no input provided" error kind the
spec's error-handling section requires for the both-missing case; the
source never raises it. -/
inductive DiagnosisError where
  | attributeError
  | noInputProvided
deriving DecidableEq, Repr

/-- Method `DiagnosisWeightingSystem.decide_ensemble`.  With both inputs `None`
the source falls through the two single-source cases into
`_ensemble_both(None, None, ...)`, whose first statement evaluates
`cnn_pred.confidence` on `None` and raises `AttributeError`. -/
def decide_ensemble (cnn_pred : Option CNNPrediction)
    (kimi_pred : Option KimiPrediction) (image_quality : ℚ := 1) :
    Except DiagnosisError EnsembleResult :=
  match cnn_pred, kimi_pred with
  | some c, none => .ok (cnn_only_result c)
  | none, some k => .ok (kimi_only_result k)
  | some c, some k => .ok (ensemble_both c k image_quality)
  | none, none => .error .attributeError

/-! ## Spec-side definitions for the language-model weight (§4.3 of the spec) -/

/-- The spec's `clamp(v, lo, hi)`. -/
def clamp (v lo hi : ℚ) : ℚ := max lo (min v hi)

/-- The spec's `ClassKnowledgeBase.difficulty(label, default 0.5)`:
same injected lookup table, neutral default. -/
def spec_difficulty (label : String) : ℚ :=
  (class_complexity.lookup label).getD 0.5

/-- Function `languageModelWeight` as worded by the spec (and by claim C7):
floor 0.2 when uncertain, otherwise
`clamp((0.75 + reasoningQuality*0.15) * (0.8 + complexity*0.2) − disagreementPenalty, 0.2, 1.0)`
with `disagreementPenalty = 0.15` iff a classifier prediction is present
with confidence above 0.9 and a differing label. -/
def spec_language_model_weight (pred : KimiPrediction)
    (classifier_pred : Option CNNPrediction) : ℚ :=
  if pred.is_uncertain then 0.2
  else
    let complexity := spec_difficulty pred.predicted_class
    let disagreement_penalty : ℚ :=
      match classifier_pred with
      | some c =>
          if 0.9 < c.confidence ∧ c.predicted_class ≠ pred.predicted_class
          then 0.15 else 0
      | none => 0
    clamp ((0.75 + pred.reasoning_quality * 0.15) * (0.8 + complexity * 0.2)
            - disagreement_penalty) 0.2 1

/-! ## TensorFlow model services (`services/tf_model_service.py` and
`services/tf_model_service_old.py`)

The neural network itself is out of scope (an opaque image → probability
vector function), so `predict` is embedded from the point where the
probability vector `pred_probs` is in hand.  Both services run on the
same 16 classes: `CLASS_NAMES` below is `list(CLASS_MAPPING.keys())`
in insertion order (the old service sets `_class_names` exactly so; the
new one falls back to it when the JSON file is absent). -/

/-- Mapping `CLASS_MAPPING`, restricted to the fields the decision logic reads:
the coarse category of each of the 16 classes.  (The Thai/English display
names and the `type` code are presentation-only and never branch-relevant.) -/
def CLASS_MAPPING_category : List (String × String) :=
  [("Anthracnose", "disease"),
   ("Bemisia tabaci", "pest"),
   ("Cercospora Leaf Spot", "disease"),
   ("Common Cutworm", "pest"),
   ("Diamondback Moth", "pest"),
   ("Downy Mildew", "disease"),
   ("Flea Beetle", "pest"),
   ("Leaf Blight", "disease"),
   ("Leaf Miner", "pest"),
   ("Leaf Spot Disease", "disease"),
   ("Leafhopper", "pest"),
   ("Powdery Mildew", "disease"),
   ("Red Pumpkin Beetle", "pest"),
   ("Rust Disease", "disease"),
   ("Thrips", "pest"),
   ("White Rust Disease", "disease")]

/-- Lookup `CLASS_MAPPING.get(name).get("category")` with the source's defaults (empty dict, then "unknown"). -/
def class_category (name : String) : String :=
  (CLASS_MAPPING_category.lookup name).getD "unknown"

/-- Evaluation of `list(CLASS_MAPPING.keys())`: the 16 class names in insertion order. -/
def CLASS_NAMES : List String := CLASS_MAPPING_category.map Prod.fst

/-- Stable insertion of index `i` into an index list ascending by
probability value (`np.argsort`; numpy's tie order is unspecified, this
embedding fixes one — no claim depends on the order among ties). -/
def insert_by_prob (probs : List ℚ) (i : ℕ) : List ℕ → List ℕ
  | [] => [i]
  | j :: rest =>
      if probs.getD i 0 ≤ probs.getD j 0 then i :: j :: rest
      else j :: insert_by_prob probs i rest

/-- Embedding of `np.argsort(pred_probs)`: indices sorted by ascending probability. -/
def argsort (probs : List ℚ) : List ℕ :=
  (List.range probs.length).foldr (insert_by_prob probs) []

/-- Slice `np.argsort(pred_probs)[-3:][::-1]`: the top-3 indices, descending. -/
def top_3_indices (probs : List ℚ) : List ℕ :=
  (argsort probs).reverse.take 3

/-- One entry of the `results` list built by `predict` (display-name
fields omitted as presentation-only). -/
structure TopResult where
  class_name : String
  confidence : ℚ
  category : String
deriving DecidableEq, Repr

/-- The `results` list: top-3 indices resolved against the class list. -/
def top_results (probs : List ℚ) : List TopResult :=
  (top_3_indices probs).map fun idx =>
    let class_name := CLASS_NAMES.getD idx ""
    { class_name := class_name
      confidence := probs.getD idx 0
      category := class_category class_name }

/-- A consistency warning (its Thai message/suggestion strings are
presentation-only and omitted; `confidence_gap` is the 3-decimal-rounded
diagnostic the category-conflict warnings carry, `0` otherwise). -/
structure ConsistencyWarning where
  warning_type : String
  level : String
  confidence_gap : ℚ
deriving DecidableEq, Repr

/-- The `category_analysis` dict of the validator. -/
structure CategoryAnalysis where
  disease_total_confidence : ℚ
  pest_total_confidence : ℚ
  predicted_category : String
  category_confidence_ratio : ℚ
deriving DecidableEq, Repr

/-- Return value of `ResultValidator.validate_prediction_consistency`.
On the `len(results) < 2` early return the Python dict carries neither
`category_analysis` nor `has_category_conflict`; the callers read both
through `.get` with defaults, modelled by `none` / `false` here. -/
structure ValidationResult where
  is_consistent : Bool
  warnings : List ConsistencyWarning
  category_analysis : Option CategoryAnalysis
  has_category_conflict : Bool
deriving DecidableEq, Repr

/-- Python's `round` (round-half-to-even) to an integer. -/
def round_half_even (x : ℚ) : ℤ :=
  let f := ⌊x⌋
  if x - f < 1/2 then f
  else if 1/2 < x - f then f + 1
  else if Even f then f else f + 1

/-- Python's `round(x, d)`. -/
def round_to (d : ℕ) (x : ℚ) : ℚ :=
  (round_half_even (x * 10 ^ d) : ℚ) / 10 ^ d

/-- Python's built-in `abs` on a rational, spelled explicitly. -/
def pyabs (x : ℚ) : ℚ := if x < 0 then -x else x

/-- Sum of probabilities over the classes of one category
(`disease_confidence` / `pest_confidence` in the validator). -/
def category_total (cat : String) (probs : List ℚ) (class_names : List String) : ℚ :=
  ((List.range class_names.length).map fun i =>
    if class_category (class_names.getD i "") = cat then probs.getD i 0 else 0).sum

/-- Method `ResultValidator.validate_prediction_consistency`, parametrized by the
two look-alike sets (the only point where the old and the new service's
validators differ). -/
def validate_prediction_consistency (disease_like pest_like : List String)
    (results : List TopResult) (probs : List ℚ) (class_names : List String) :
    ValidationResult :=
  if results.length < 2 then
    { is_consistent := true, warnings := [], category_analysis := none
      has_category_conflict := false }
  else
    let primary := results.getD 0 ⟨"", 0, "unknown"⟩
    let secondary := results.getD 1 ⟨"", 0, "unknown"⟩
    let category_conflict :=
      primary.category ≠ secondary.category ∧
      primary.category ∈ ["disease", "pest"] ∧
      secondary.category ∈ ["disease", "pest"]
    let confidence_gap := pyabs (primary.confidence - secondary.confidence)
    let conflict_warnings : List ConsistencyWarning :=
      if category_conflict then
        if confidence_gap < 0.15 then
          [⟨"category_conflict", "high", round_to 3 confidence_gap⟩]
        else if confidence_gap < 0.30 then
          [⟨"category_conflict", "medium", round_to 3 confidence_gap⟩]
        else []
      else []
    let look_alike_warnings : List ConsistencyWarning :=
      if primary.class_name ∈ disease_like ∧ primary.category = "disease" then
        if results.any (fun r => r.category == "pest") then
          [⟨"look_alike", "medium", 0⟩]
        else []
      else if primary.class_name ∈ pest_like ∧ primary.category = "pest" then
        if results.any (fun r => r.category == "disease") then
          [⟨"look_alike", "medium", 0⟩]
        else []
      else []
    let warnings := conflict_warnings ++ look_alike_warnings
    let disease_confidence := category_total "disease" probs class_names
    let pest_confidence := category_total "pest" probs class_names
    { is_consistent := warnings.length = 0
      warnings := warnings
      category_analysis := some
        { disease_total_confidence := round_to 4 disease_confidence
          pest_total_confidence := round_to 4 pest_confidence
          predicted_category := primary.category
          category_confidence_ratio := round_to 4
            (max disease_confidence pest_confidence /
              (disease_confidence + pest_confidence + 1/10000000)) }
      has_category_conflict := category_conflict }

/-- Look-alike sets of the old service's validator (underscore spellings
as in the source — they never match an actual class name). -/
def old_disease_like : List String :=
  ["Leaf_Spot_Disease", "Leaf_Blight", "Cercospora_Leaf"]

/-- Old service's `PEST_LOOKING_LIKE_DISEASE`. -/
def old_pest_like : List String := ["Leaf_Miner", "flea_beetle"]

/-- Look-alike sets of the new service's validator. -/
def new_disease_like : List String :=
  ["Leaf Spot Disease", "Leaf Blight", "Cercospora Leaf Spot"]

/-- New service's `PEST_LOOKING_LIKE_DISEASE`. -/
def new_pest_like : List String := ["Leaf Miner", "Flea Beetle"]

/-- The `uncertainty` computed by the old service's `predict`:
`pred_probs[top_3_indices[0]] - pred_probs[top_3_indices[1]]`. -/
def uncertainty_score (probs : List ℚ) : ℚ :=
  probs.getD ((top_3_indices probs).getD 0 0) 0 -
    probs.getD ((top_3_indices probs).getD 1 0) 0

/-- The validator result as the old service's `predict` obtains it. -/
def old_validation (probs : List ℚ) : ValidationResult :=
  validate_prediction_consistency old_disease_like old_pest_like
    (top_results probs) probs CLASS_NAMES

/-- Read of the reported ratio, `validation_result.get("category_analysis").get("category_confidence_ratio")` with the source's defaults (empty dict, then 1.0). -/
def reported_category_ratio (probs : List ℚ) : ℚ :=
  ((old_validation probs).category_analysis.map
    (fun a => a.category_confidence_ratio)).getD 1

/-- Output record of the old service's `predict` (fields the claims are
about; `all_predictions` and the static metadata strings are omitted). -/
structure OldPredictOutput where
  success : Bool
  is_detected : Bool
  is_uncertain : Bool
  uncertainty_score : ℚ
  primary : TopResult
  adjusted_confidence : ℚ
  top_3 : List TopResult
  validation : ValidationResult
deriving DecidableEq, Repr

/-- Tail of `tf_model_service_old.TensorFlowModelService.predict`
(from the point where `pred_probs` is available), assuming the
16-class deployment so that no `IndexError` path is reachable. -/
def old_predict_from_probs (probs : List ℚ) (confidence_threshold : ℚ) :
    OldPredictOutput :=
  let results := top_results probs
  let primary_result := results.getD 0 ⟨"", 0, "unknown"⟩
  let is_detected := confidence_threshold < primary_result.confidence
  let uncertainty := uncertainty_score probs
  let is_uncertain0 : Bool := uncertainty < 0.2
  let validation_result := old_validation probs
  let is_uncertain1 : Bool :=
    if validation_result.has_category_conflict = true ∧ uncertainty < 0.25
    then true else is_uncertain0
  let category_conf_ratio := reported_category_ratio probs
  let adjusted_confidence :=
    if category_conf_ratio < 0.6 then primary_result.confidence * 0.8
    else primary_result.confidence
  let is_uncertain2 : Bool :=
    if category_conf_ratio < 0.6 then true else is_uncertain1
  { success := true
    is_detected := is_detected
    is_uncertain := is_uncertain2
    uncertainty_score := round_to 4 uncertainty
    primary := primary_result
    adjusted_confidence := round_to 4 adjusted_confidence
    top_3 := results
    validation := validation_result }

/-- Output record of the new service's `predict` (claim-relevant fields). -/
structure NewPredictOutput where
  success : Bool
  predictions : List TopResult
  primary_prediction : TopResult
  is_healthy : Bool
  validation : ValidationResult
  model_version : String
deriving DecidableEq, Repr

/-- Tail of `tf_model_service.TensorFlowModelService.predict` (from the
point where `pred_probs` is available), 16-class deployment. -/
def new_predict_from_probs (probs : List ℚ) (confidence_threshold : ℚ) :
    NewPredictOutput :=
  let results := top_results probs
  let validation := validate_prediction_consistency new_disease_like new_pest_like
    results probs CLASS_NAMES
  let is_healthy : Bool := (results.getD 0 ⟨"", 0, "unknown"⟩).confidence < confidence_threshold
  { success := true
    predictions := results
    primary_prediction := results.getD 0 ⟨"", 0, "unknown"⟩
    is_healthy := is_healthy
    validation := validation
    model_version := "model_round3" }

/-! ## Test-time augmentation (`predict_with_tta`, old service)

Image decoding, enhancement and the PIL view transforms are out-of-scope
image operations; they are abstracted as an opaque image type `α` with
the four view transforms, and the model as an opaque `α → List ℚ`. -/

/-- The four deterministic view transforms used by `predict_with_tta`. -/
structure TTATransforms (α : Type) where
  flip_left_right : α → α
  flip_top_bottom : α → α
  rotate_plus5 : α → α
  rotate_minus5 : α → α

/-- The views `predict_with_tta` runs the model over, in source order:
original, horizontal flip, vertical flip, +5° rotation, −5° rotation. -/
def tta_views {α : Type} (T : TTATransforms α) (img : α) : List α :=
  [img, T.flip_left_right img, T.flip_top_bottom img,
   T.rotate_plus5 img, T.rotate_minus5 img]

/-- Fusion `np.mean(all_predictions, axis=0)` for equal-length vectors. -/
def np_mean_axis0 (preds : List (List ℚ)) : List ℚ :=
  (List.range (preds.headD []).length).map fun i =>
    (preds.map fun p => p.getD i 0).sum / preds.length

/-- Method `TensorFlowModelService.predict_with_tta`: runs the model over the
five views and fuses by elementwise mean.  The `n_augmentations`
parameter is accepted (source default 5) but, as in the source body,
never read. -/
def predict_with_tta {α : Type} (T : TTATransforms α) (model : α → List ℚ)
    (img : α) (n_augmentations : ℕ := 5) : List ℚ :=
  np_mean_axis0 ((tta_views T img).map model)

/-! ## Input-validity predicates (the data model's declared constraints,
§3/§6 of the spec: confidence and scores in `[0,1]`, top-k sorted
descending with the k highest-probability distinct labels). -/

/-- Declared numeric ranges of a classifier prediction. -/
def CNNPrediction.in_ranges (c : CNNPrediction) : Prop :=
  0 ≤ c.confidence ∧ c.confidence ≤ 1 ∧ ∀ p ∈ c.top_k, 0 ≤ p.2 ∧ p.2 ≤ 1

/-- Wellformedness of `topK` as declared by the data model: descending scores and
pairwise-distinct labels (a genuine top-k of one distribution). -/
def CNNPrediction.topk_wellformed (c : CNNPrediction) : Prop :=
  c.top_k.Chain' (fun a b => b.2 ≤ a.2) ∧ (c.top_k.map Prod.fst).Nodup

/-! ## Concrete inputs used by witnesses and counterexamples -/

/-- Witness input: high-confidence classifier prediction. -/
def cnnW1 : CNNPrediction :=
  ⟨"Powdery Mildew", 0.97, [("Powdery Mildew", 0.97), ("Downy Mildew", 0.02)], 45⟩

/-- Witness input: uncertain language-model prediction. -/
def kimiW1 : KimiPrediction :=
  ⟨"No disease or pest found", "No disease or pest found", true, 0.7, 1200⟩

/-- Counterexample input for the agreement bound: classifier confidence
0.97, same label from both sources, language model not healthy-ish. -/
def cnnCE2 : CNNPrediction :=
  ⟨"Anthracnose", 0.97, [("Anthracnose", 0.97), ("Downy Mildew", 0.02)], 45⟩

/-- Language-model half of the agreement counterexample. -/
def kimiCE2 : KimiPrediction := ⟨"Anthracnose", "Anthracnose", false, 0.9, 1200⟩

/-- Counterexample input for the confidence-bounds claim: all scalar
fields inside the declared `[0,1]` ranges, but `top_k` not sorted
descending (rank-1 score 0, rank-2 score 1). -/
def cnnCE5 : CNNPrediction := ⟨"A", 0, [("A", 0), ("B", 1)], 45⟩

/-- Language-model half of the confidence-bounds counterexample. -/
def kimiCE5 : KimiPrediction := ⟨"C", "C", false, 0, 1200⟩

/-- Witness input: a well-formed classifier prediction. -/
def cnnV : CNNPrediction :=
  ⟨"Anthracnose", 0.9, [("Anthracnose", 0.9), ("Downy Mildew", 0.05)], 45⟩

/-- Witness input: a confident language-model prediction disagreeing
with `cnnV`. -/
def kimiV : KimiPrediction := ⟨"Downy Mildew", "Downy Mildew", false, 0.85, 1200⟩

/-- A 16-class probability vector (CLASS_NAMES order) whose top-1/top-2
gap is 0.25, whose top-2 are both diseases (no category conflict), and
whose disease/pest mass split is 0.55/0.45. -/
def probsCE4 : List ℚ :=
  [0.4, 9/160, 0, 9/160, 9/160, 0.15, 9/160, 0, 9/160, 0, 9/160, 0, 9/160, 0, 9/160, 0]

/-- A 16-class probability vector with top-1 score 0.35 (below a 0.4
threshold) and the rest spread uniformly. -/
def probsCE3 : List ℚ :=
  [0.35, 13/300, 13/300, 13/300, 13/300, 13/300, 13/300, 13/300,
   13/300, 13/300, 13/300, 13/300, 13/300, 13/300, 13/300, 13/300]

/-- Witness model for the TTA claims: image type `ℕ`, two output
classes. -/
def modelW : ℕ → List ℚ := fun n => [(n : ℚ), (n : ℚ) + 1]

/-- Witness view transforms for the TTA claims. -/
def transformsW : TTATransforms ℕ := ⟨(· + 1), (· + 2), (· + 3), (· + 4)⟩

/-! ## Bridge lemmas -/

theorem pymin_eq_min (a b : ℚ) : pymin a b = min a b := by
  unfold pymin
  rw [min_def]

theorem pymax_eq_max (a b : ℚ) : pymax a b = max a b := by
  unfold pymax
  rcases le_total b a with h | h
  · rw [if_pos h, max_eq_left h]
  · by_cases h2 : b ≤ a
    · rw [if_pos h2, max_eq_right h]
      exact le_antisymm h h2
    · rw [if_neg h2, max_eq_right h]

/-! ## C7: the language-model weight formula -/

/-- C7: for every language-model prediction, the language-model weight
equals 0.2 when `isUncertain`, else
`clamp((0.75 + reasoningQuality*0.15) * (0.8 + complexity*0.2) − disagreementPenalty, 0.2, 1.0)`,
with `complexity` the knowledge-base difficulty of the predicted label
(default 0.5) and `disagreementPenalty = 0.15` exactly when a classifier
prediction is present with confidence above 0.9 and a differing label. -/
theorem claim_C7_kimi_weight (kimi_pred : KimiPrediction)
    (cnn_pred : Option CNNPrediction) :
    calculate_kimi_weight kimi_pred cnn_pred =
      spec_language_model_weight kimi_pred cnn_pred := by
  unfold calculate_kimi_weight spec_language_model_weight clamp
    spec_difficulty complexity_of
  by_cases h : kimi_pred.is_uncertain
  · simp [h]
  · simp only [h, if_false, Bool.false_eq_true]
    rw [pymax_eq_max, pymin_eq_min]
    rfl

/-! ## C9: behaviour when both inputs are missing -/

/-- C9 counterexample: with both inputs missing, `decide_ensemble` does
not produce the distinct "no input provided" error kind the spec
requires. -/
theorem claim_C9_counterexample :
    decide_ensemble none none 1 ≠ Except.error DiagnosisError.noInputProvided := by
  simp [decide_ensemble]

/-- C9 (amended): with both inputs missing, the call falls through to
`_ensemble_both(None, None, ...)` and fails with the `AttributeError`
raised by dereferencing the missing classifier prediction — it never
silently returns a default decision, but the error kind is the
unrelated attribute error, not a distinct "no input provided" kind. -/
theorem claim_C9_amended (image_quality : ℚ) :
    decide_ensemble none none image_quality =
      Except.error DiagnosisError.attributeError := rfl

/-! ## C10: the TTA view set ignores `n_augmentations` -/

/-- C10: every successful TTA call fuses exactly the five views —
identity, horizontal flip, vertical flip, +5° and −5° rotation — and the
`n_augmentations` parameter is never read (no 3-view mode exists). -/
theorem claim_C10_tta_views (α : Type) (T : TTATransforms α)
    (model : α → List ℚ) (img : α) (n m : ℕ) :
    predict_with_tta T model img n = predict_with_tta T model img m ∧
    predict_with_tta T model img n =
      np_mean_axis0 [model img, model (T.flip_left_right img),
        model (T.flip_top_bottom img), model (T.rotate_plus5 img),
        model (T.rotate_minus5 img)] ∧
    (tta_views T img).length = 5 :=
  ⟨rfl, rfl, rfl⟩

/-! ## C8: TTA fusion is the exact elementwise mean -/

/-- C8: for fixed per-view outputs (all of the model's class count), the
fused vector at every index is exactly the arithmetic mean of the five
per-view vectors at that index. -/
theorem claim_C8_tta_mean (α : Type) (T : TTATransforms α)
    (model : α → List ℚ) (img : α) (n i : ℕ)
    (hlen : ∀ v ∈ tta_views T img, (model v).length = (model img).length)
    (hi : i < (model img).length) :
    (predict_with_tta T model img n).getD i 0 =
      ((model img).getD i 0 + (model (T.flip_left_right img)).getD i 0 +
       (model (T.flip_top_bottom img)).getD i 0 +
       (model (T.rotate_plus5 img)).getD i 0 +
       (model (T.rotate_minus5 img)).getD i 0) / 5 := by
  unfold predict_with_tta np_mean_axis0 tta_views
  simp only [List.map_cons, List.map_nil, List.headD_cons]
  rw [List.getD_eq_getElem?_getD, List.getElem?_map, List.getElem?_range hi]
  simp [List.sum_cons]
  ring

/-- C8 witness: a concrete two-class model over `ℕ` images. -/
theorem claim_C8_witness :
    (∀ v ∈ tta_views transformsW 10, (modelW v).length = (modelW 10).length) ∧
    0 < (modelW 10).length ∧
    (predict_with_tta transformsW modelW 10 5).getD 0 0 =
      ((modelW 10).getD 0 0 + (modelW (transformsW.flip_left_right 10)).getD 0 0 +
       (modelW (transformsW.flip_top_bottom 10)).getD 0 0 +
       (modelW (transformsW.rotate_plus5 10)).getD 0 0 +
       (modelW (transformsW.rotate_minus5 10)).getD 0 0) / 5 :=
  ⟨by decide, by decide, claim_C8_tta_mean ℕ transformsW modelW 10 5 0
    (by decide) (by decide)⟩

/-! ## Rounding and pipeline-shape helper lemmas -/

theorem round_to_eq_down (d : ℕ) (x : ℚ) (n : ℤ) (h1 : (n : ℚ) ≤ x * 10 ^ d)
    (h2 : x * 10 ^ d - n < 1/2) : round_to d x = (n : ℚ) / 10 ^ d := by
  have hf : ⌊x * 10 ^ d⌋ = n := Int.floor_eq_iff.mpr ⟨h1, by linarith⟩
  simp only [round_to, round_half_even, hf]
  rw [if_pos h2]

theorem round_to_eq_up (d : ℕ) (x : ℚ) (n : ℤ) (h1 : (n : ℚ) ≤ x * 10 ^ d)
    (h2 : x * 10 ^ d < n + 1) (h3 : 1/2 < x * 10 ^ d - n) :
    round_to d x = ((n : ℚ) + 1) / 10 ^ d := by
  have hf : ⌊x * 10 ^ d⌋ = n := Int.floor_eq_iff.mpr ⟨h1, h2⟩
  simp only [round_to, round_half_even, hf]
  rw [if_neg (by linarith), if_pos h3]
  push_cast
  ring

theorem insert_by_prob_length (probs : List ℚ) (i : ℕ) (l : List ℕ) :
    (insert_by_prob probs i l).length = l.length + 1 := by
  induction l with
  | nil => rfl
  | cons j rest ih =>
      unfold insert_by_prob
      split_ifs <;> simp [ih]

theorem argsort_length (probs : List ℚ) : (argsort probs).length = probs.length := by
  unfold argsort
  have : ∀ L : List ℕ, (L.foldr (insert_by_prob probs) []).length = L.length := by
    intro L
    induction L with
    | nil => rfl
    | cons a t ih => simp [List.foldr, insert_by_prob_length, ih]
  rw [this, List.length_range]

theorem top_3_indices_cons (probs : List ℚ) (h : 3 ≤ probs.length) :
    ∃ i0 rest, top_3_indices probs = i0 :: rest := by
  have hlen : (top_3_indices probs).length = 3 := by
    unfold top_3_indices
    rw [List.length_take, List.length_reverse, argsort_length]
    omega
  match hc : top_3_indices probs with
  | [] => rw [hc] at hlen; simp at hlen
  | a :: t => exact ⟨a, t, rfl⟩

/-! ## C4: the uncertainty flag of the old service's predict -/

theorem top3_probsCE4 : top_3_indices probsCE4 = [0, 5, 14] := by
  norm_num [top_3_indices, argsort, insert_by_prob, probsCE4,
    (by decide : List.range 16 = [0,1,2,3,4,5,6,7,8,9,10,11,12,13,14,15]),
    List.foldr, List.getD, List.getElem?_cons_zero, List.getElem?_cons_succ]

theorem top_results_probsCE4 : top_results probsCE4 =
    [⟨"Anthracnose", 0.4, "disease"⟩, ⟨"Downy Mildew", 0.15, "disease"⟩,
     ⟨"Thrips", 9/160, "pest"⟩] := by
  rw [top_results, top3_probsCE4]
  simp [CLASS_NAMES, CLASS_MAPPING_category, class_category, List.lookup, probsCE4,
    List.getD, List.getElem?_cons_zero, List.getElem?_cons_succ]

theorem disease_total_probsCE4 : category_total "disease" probsCE4 CLASS_NAMES = 11/20 := by
  simp [category_total, CLASS_NAMES, CLASS_MAPPING_category, class_category, List.lookup,
    probsCE4, List.getD, List.getElem?_cons_zero, List.getElem?_cons_succ,
    (by decide : List.range 16 = [0,1,2,3,4,5,6,7,8,9,10,11,12,13,14,15])]
  norm_num

theorem pest_total_probsCE4 : category_total "pest" probsCE4 CLASS_NAMES = 9/20 := by
  simp [category_total, CLASS_NAMES, CLASS_MAPPING_category, class_category, List.lookup,
    probsCE4, List.getD, List.getElem?_cons_zero, List.getElem?_cons_succ,
    (by decide : List.range 16 = [0,1,2,3,4,5,6,7,8,9,10,11,12,13,14,15])]
  norm_num

theorem validation_probsCE4 :
    (old_validation probsCE4).has_category_conflict = false ∧
    (old_validation probsCE4).category_analysis =
      some ⟨11/20, 9/20, "disease", 11/20⟩ := by
  rw [old_validation, validate_prediction_consistency, top_results_probsCE4]
  norm_num [disease_total_probsCE4, pest_total_probsCE4, max_def]
  refine ⟨?_, ?_, ?_⟩
  · rw [round_to_eq_down 4 (11/20) 5500 (by norm_num) (by norm_num)]
    norm_num
  · rw [round_to_eq_down 4 (9/20) 4500 (by norm_num) (by norm_num)]
    norm_num
  · rw [round_to_eq_up 4 (500000/909091) 5499 (by norm_num) (by norm_num) (by norm_num)]
    norm_num

theorem uncertainty_probsCE4 : uncertainty_score probsCE4 = 1/4 := by
  rw [uncertainty_score, top3_probsCE4]
  norm_num [probsCE4, List.getD, List.getElem?_cons_zero, List.getElem?_cons_succ]

/-- C4 counterexample: a 16-class probability vector on which the old
service's `predict` reports `is_uncertain = true` although the top-1/2
gap is 0.25 (not below 0.2) and there is no category conflict — the
claim's two-case iff is violated because a third trigger (category
confidence ratio below 0.6) also sets the flag. -/
theorem claim_C4_counterexample :
    probsCE4.length = 16 ∧
    uncertainty_score probsCE4 = 1/4 ∧
    (old_validation probsCE4).has_category_conflict = false ∧
    (old_predict_from_probs probsCE4 0.5).is_uncertain = true ∧
    ¬(uncertainty_score probsCE4 < 0.2 ∨
      ((old_validation probsCE4).has_category_conflict = true ∧
        uncertainty_score probsCE4 < 0.25)) := by
  have hratio : reported_category_ratio probsCE4 = 11/20 := by
    rw [reported_category_ratio, validation_probsCE4.2]
    rfl
  refine ⟨rfl, uncertainty_probsCE4, validation_probsCE4.1, ?_, ?_⟩
  · simp only [old_predict_from_probs, hratio, validation_probsCE4.1]
    norm_num
  · rw [uncertainty_probsCE4, validation_probsCE4.1]
    norm_num

/-- C4 (amended): for every 16-class probability vector, the reported
`is_uncertain` flag is true iff the top-1/top-2 gap is below 0.2, or
there is a category conflict and the gap is below 0.25, **or the
(4-decimal-rounded) category confidence ratio is below 0.6** — the
source sets the flag in this third case too, together with the 20%
confidence reduction. -/
theorem claim_C4_amended (probs : List ℚ) (threshold : ℚ)
    (hlen : probs.length = 16) :
    ((old_predict_from_probs probs threshold).is_uncertain = true ↔
      (uncertainty_score probs < 0.2 ∨
       ((old_validation probs).has_category_conflict = true ∧
         uncertainty_score probs < 0.25) ∨
       reported_category_ratio probs < 0.6)) := by
  simp only [old_predict_from_probs]
  split_ifs with h1 h2 <;> simp_all

/-- C4 witness: the amended iff instantiated on a concrete 16-class
vector. -/
theorem claim_C4_witness :
    probsCE4.length = 16 ∧
    ((old_predict_from_probs probsCE4 0.5).is_uncertain = true ↔
      (uncertainty_score probsCE4 < 0.2 ∨
       ((old_validation probsCE4).has_category_conflict = true ∧
         uncertainty_score probsCE4 < 0.25) ∨
       reported_category_ratio probsCE4 < 0.6)) :=
  ⟨rfl, claim_C4_amended probsCE4 0.5 rfl⟩

/-! ## C3: behaviour below the detection threshold -/

theorem top3_probsCE3 : top_3_indices probsCE3 = [0, 15, 14] := by
  norm_num [top_3_indices, argsort, insert_by_prob, probsCE3,
    (by decide : List.range 16 = [0,1,2,3,4,5,6,7,8,9,10,11,12,13,14,15]),
    List.foldr, List.getD, List.getElem?_cons_zero, List.getElem?_cons_succ]

theorem top_results_probsCE3 : top_results probsCE3 =
    [⟨"Anthracnose", 0.35, "disease"⟩, ⟨"White Rust Disease", 13/300, "disease"⟩,
     ⟨"Thrips", 13/300, "pest"⟩] := by
  rw [top_results, top3_probsCE3]
  simp [CLASS_NAMES, CLASS_MAPPING_category, class_category, List.lookup, probsCE3,
    List.getD, List.getElem?_cons_zero, List.getElem?_cons_succ]

/-- C3 counterexample: top-1 score 0.35 below the 0.4 threshold, yet the
result is not a synthetic healthy verdict with confidence
`1 − 0.35 = 0.65`: both services keep the classifier's label and its raw
confidence and only flip a boolean flag (`is_healthy` / `is_detected`). -/
theorem claim_C3_counterexample :
    probsCE3.length = 16 ∧
    (new_predict_from_probs probsCE3 0.4).is_healthy = true ∧
    (new_predict_from_probs probsCE3 0.4).primary_prediction.class_name = "Anthracnose" ∧
    (new_predict_from_probs probsCE3 0.4).primary_prediction.confidence = 0.35 ∧
    (new_predict_from_probs probsCE3 0.4).primary_prediction.confidence ≠ 1 - 0.35 ∧
    (old_predict_from_probs probsCE3 0.4).is_detected = false ∧
    (old_predict_from_probs probsCE3 0.4).primary.class_name = "Anthracnose" ∧
    (old_predict_from_probs probsCE3 0.4).primary.confidence = 0.35 := by
  have hres : (top_results probsCE3).getD 0 ⟨"", 0, "unknown"⟩ =
      ⟨"Anthracnose", 0.35, "disease"⟩ := by
    rw [top_results_probsCE3]
    rfl
  refine ⟨rfl, ?_, ?_, ?_, ?_, ?_, ?_, ?_⟩
  · simp only [new_predict_from_probs, hres]
    norm_num
  · simp only [new_predict_from_probs, hres]
  · simp only [new_predict_from_probs, hres]
  · simp only [new_predict_from_probs, hres]
    norm_num
  · simp only [old_predict_from_probs, hres]
    norm_num
  · simp only [old_predict_from_probs, hres]
  · simp only [old_predict_from_probs, hres]

/-- C3 (amended): when the top-1 score is below the threshold the predict
result does *not* discard the label or synthesize a `1 − top1` healthy
confidence; for every 16-class vector the primary keeps the top-1 label
and its raw probability, the new service only sets
`is_healthy = (top1 < threshold)` and the old one
`is_detected = (top1 > threshold)`. -/
theorem claim_C3_amended (probs : List ℚ) (threshold : ℚ)
    (hlen : probs.length = 16) :
    (new_predict_from_probs probs threshold).primary_prediction.class_name =
      CLASS_NAMES.getD ((top_3_indices probs).getD 0 0) "" ∧
    (new_predict_from_probs probs threshold).primary_prediction.confidence =
      probs.getD ((top_3_indices probs).getD 0 0) 0 ∧
    ((new_predict_from_probs probs threshold).is_healthy = true ↔
      probs.getD ((top_3_indices probs).getD 0 0) 0 < threshold) ∧
    ((old_predict_from_probs probs threshold).is_detected = true ↔
      threshold < probs.getD ((top_3_indices probs).getD 0 0) 0) ∧
    (old_predict_from_probs probs threshold).primary =
      (new_predict_from_probs probs threshold).primary_prediction := by
  obtain ⟨i0, rest, hcons⟩ := top_3_indices_cons probs (by omega)
  have hget : (top_3_indices probs).getD 0 0 = i0 := by rw [hcons]; rfl
  have hprimary : (top_results probs).getD 0 ⟨"", 0, "unknown"⟩ =
      ⟨CLASS_NAMES.getD i0 "", probs.getD i0 0,
        class_category (CLASS_NAMES.getD i0 "")⟩ := by
    rw [top_results, hcons]
    rfl
  refine ⟨?_, ?_, ?_, ?_, ?_⟩
  · simp only [new_predict_from_probs, hprimary, hget]
  · simp only [new_predict_from_probs, hprimary, hget]
  · simp only [new_predict_from_probs, hprimary, hget, decide_eq_true_iff]
  · simp only [old_predict_from_probs, hprimary, hget, decide_eq_true_iff]
  · simp only [old_predict_from_probs, new_predict_from_probs]

/-- C3 witness: the amended statement instantiated on a concrete
16-class vector whose top-1 score is below the threshold. -/
theorem claim_C3_witness :
    probsCE3.length = 16 ∧
    ((new_predict_from_probs probsCE3 0.4).primary_prediction.class_name =
      CLASS_NAMES.getD ((top_3_indices probsCE3).getD 0 0) "" ∧
    (new_predict_from_probs probsCE3 0.4).primary_prediction.confidence =
      probsCE3.getD ((top_3_indices probsCE3).getD 0 0) 0 ∧
    ((new_predict_from_probs probsCE3 0.4).is_healthy = true ↔
      probsCE3.getD ((top_3_indices probsCE3).getD 0 0) 0 < 0.4) ∧
    ((old_predict_from_probs probsCE3 0.4).is_detected = true ↔
      0.4 < probsCE3.getD ((top_3_indices probsCE3).getD 0 0) 0) ∧
    (old_predict_from_probs probsCE3 0.4).primary =
      (new_predict_from_probs probsCE3 0.4).primary_prediction) :=
  ⟨rfl, claim_C3_amended probsCE3 0.4 rfl⟩

/-! ## C1: the healthy-override branch of the ensemble -/

/-- C1: with both predictions present and the language-model output
uncertain or carrying a (case-insensitively) healthy alias label: when
classifier confidence exceeds 0.95 the decision keeps the classifier's
label with half its confidence and fixed weights 0.7/0.3; otherwise the
label is the healthy sentinel with confidence exactly 0.85 and fixed
weights 0.1/0.9. -/
theorem claim_C1_healthy_override (cnn_pred : CNNPrediction)
    (kimi_pred : KimiPrediction) (image_quality : ℚ)
    (h : is_kimi_healthy kimi_pred = true) :
    (0.95 < cnn_pred.confidence →
      (ensemble_both cnn_pred kimi_pred image_quality).final_diagnosis =
        cnn_pred.predicted_class ∧
      (ensemble_both cnn_pred kimi_pred image_quality).confidence =
        cnn_pred.confidence * 0.5 ∧
      (ensemble_both cnn_pred kimi_pred image_quality).cnn_weight = 0.7 ∧
      (ensemble_both cnn_pred kimi_pred image_quality).kimi_weight = 0.3) ∧
    (¬ 0.95 < cnn_pred.confidence →
      (ensemble_both cnn_pred kimi_pred image_quality).final_diagnosis =
        healthy_sentinel ∧
      (ensemble_both cnn_pred kimi_pred image_quality).confidence = 0.85 ∧
      (ensemble_both cnn_pred kimi_pred image_quality).cnn_weight = 0.1 ∧
      (ensemble_both cnn_pred kimi_pred image_quality).kimi_weight = 0.9) := by
  constructor <;> intro hc <;> simp [ensemble_both, h, hc]

/-- C1 witness: uncertain language-model output against a classifier at
confidence 0.97. -/
theorem claim_C1_witness :
    is_kimi_healthy kimiW1 = true ∧ 0.95 < cnnW1.confidence ∧
    ((ensemble_both cnnW1 kimiW1 0.9).final_diagnosis = cnnW1.predicted_class ∧
     (ensemble_both cnnW1 kimiW1 0.9).confidence = cnnW1.confidence * 0.5 ∧
     (ensemble_both cnnW1 kimiW1 0.9).cnn_weight = 0.7 ∧
     (ensemble_both cnnW1 kimiW1 0.9).kimi_weight = 0.3) :=
  ⟨rfl, by norm_num [cnnW1],
    (claim_C1_healthy_override cnnW1 kimiW1 0.9 rfl).1 (by norm_num [cnnW1])⟩

/-! ## C2: the agreement guarantee -/

/-- C2 counterexample: both sources agree on "Anthracnose" with
classifier confidence 0.97 (language model neither uncertain nor
healthy), yet the decision's confidence is 0.95, strictly below
`max(classifier.confidence, 0.75) = 0.97` — the claimed lower bound
fails because the agreement formula caps confidence at 0.95. -/
theorem claim_C2_counterexample :
    cnnCE2.predicted_class = kimiCE2.predicted_class ∧
    kimiCE2.is_uncertain = false ∧
    is_kimi_healthy kimiCE2 = false ∧
    (ensemble_both cnnCE2 kimiCE2 1).final_diagnosis = cnnCE2.predicted_class ∧
    (ensemble_both cnnCE2 kimiCE2 1).confidence = 0.95 ∧
    (ensemble_both cnnCE2 kimiCE2 1).confidence < max cnnCE2.confidence 0.75 := by
  have hk : is_kimi_healthy kimiCE2 = false := by decide
  have hag : cnnCE2.predicted_class = kimiCE2.predicted_class := rfl
  have hconf : (ensemble_both cnnCE2 kimiCE2 1).confidence = 0.95 := by
    simp only [ensemble_both, hk, Bool.false_eq_true, if_false, hag, if_true]
    norm_num [pymin, pymax, cnnCE2]
  refine ⟨rfl, rfl, hk, ?_, hconf, ?_⟩
  · simp [ensemble_both, hk, hag]
  · rw [hconf]
    norm_num [cnnCE2, max_def]

/-- C2 (amended): when both labels agree and the language-model output is
neither uncertain nor a healthy alias, the decision keeps the agreed
label and its confidence is `min(0.95, max(classifierConfidence, 0.75) + 0.15)`,
hence at least `max(min(classifierConfidence, 0.95), 0.75)` — the
original `max(classifierConfidence, 0.75)` lower bound must be capped at
0.95. -/
theorem claim_C2_agreement_amended (cnn_pred : CNNPrediction)
    (kimi_pred : KimiPrediction) (image_quality : ℚ)
    (hu : kimi_pred.is_uncertain = false)
    (hh : str_lower kimi_pred.predicted_class ∉ kimi_healthy_aliases)
    (hag : cnn_pred.predicted_class = kimi_pred.predicted_class) :
    (ensemble_both cnn_pred kimi_pred image_quality).final_diagnosis =
      cnn_pred.predicted_class ∧
    (ensemble_both cnn_pred kimi_pred image_quality).confidence =
      pymin 0.95 (pymax cnn_pred.confidence 0.75 + 0.15) ∧
    max (min cnn_pred.confidence 0.95) 0.75 ≤
      (ensemble_both cnn_pred kimi_pred image_quality).confidence := by
  have hk : is_kimi_healthy kimi_pred = false := by
    simp [is_kimi_healthy, hu, hh]
  have hbranch :
      (ensemble_both cnn_pred kimi_pred image_quality).final_diagnosis =
        cnn_pred.predicted_class ∧
      (ensemble_both cnn_pred kimi_pred image_quality).confidence =
        pymin 0.95 (pymax cnn_pred.confidence 0.75 + 0.15) := by
    constructor <;> simp [ensemble_both, hk, hag]
  refine ⟨hbranch.1, hbranch.2, ?_⟩
  rw [hbranch.2, pymin_eq_min, pymax_eq_max]
  have h1 : min cnn_pred.confidence 0.95 ≤ cnn_pred.confidence :=
    min_le_left _ _
  have h2 : min cnn_pred.confidence 0.95 ≤ (0.95 : ℚ) := min_le_right _ _
  have h3 : cnn_pred.confidence ≤ max cnn_pred.confidence 0.75 :=
    le_max_left _ _
  have h4 : (0.75 : ℚ) ≤ max cnn_pred.confidence 0.75 := le_max_right _ _
  apply max_le
  · apply le_min h2
    linarith
  · apply le_min (by norm_num)
    linarith

/-- C2 witness: the amended agreement bound at classifier confidence
0.97. -/
theorem claim_C2_witness :
    kimiCE2.is_uncertain = false ∧
    str_lower kimiCE2.predicted_class ∉ kimi_healthy_aliases ∧
    cnnCE2.predicted_class = kimiCE2.predicted_class ∧
    ((ensemble_both cnnCE2 kimiCE2 1).final_diagnosis = cnnCE2.predicted_class ∧
     (ensemble_both cnnCE2 kimiCE2 1).confidence =
       pymin 0.95 (pymax cnnCE2.confidence 0.75 + 0.15) ∧
     max (min cnnCE2.confidence 0.95) 0.75 ≤
       (ensemble_both cnnCE2 kimiCE2 1).confidence) :=
  ⟨rfl, by decide, rfl,
    claim_C2_agreement_amended cnnCE2 kimiCE2 1 rfl (by decide) rfl⟩

/-! ## Weight-bound helper lemmas -/

theorem lookup_getD_bounds (l : List (String × ℚ))
    (h : ∀ p ∈ l, 0 ≤ p.2 ∧ p.2 ≤ 1) (s : String) (d : ℚ)
    (hd0 : 0 ≤ d) (hd1 : d ≤ 1) :
    0 ≤ ((l.lookup s).getD d) ∧ ((l.lookup s).getD d) ≤ 1 := by
  induction l with
  | nil => exact ⟨hd0, hd1⟩
  | cons p rest ih =>
      rcases p with ⟨k, v⟩
      cases hbeq : (s == k) with
      | true =>
          simp only [List.lookup, hbeq, Option.getD_some]
          exact h (k, v) (by simp)
      | false =>
          simp only [List.lookup, hbeq]
          exact ih fun q hq => h q (List.mem_cons_of_mem _ hq)

theorem complexity_of_bounds (label : String) :
    0 ≤ complexity_of label ∧ complexity_of label ≤ 1 := by
  refine lookup_getD_bounds class_complexity ?_ label 0.5 (by norm_num) (by norm_num)
  intro p hp
  fin_cases hp <;> norm_num

theorem gap_nonneg (c : CNNPrediction)
    (hs : c.top_k.Chain' (fun a b => b.2 ≤ a.2)) :
    0 ≤ c.get_top_confidence_gap := by
  unfold CNNPrediction.get_top_confidence_gap
  cases hl : c.top_k with
  | nil => norm_num
  | cons a rest =>
      cases hrest : rest with
      | nil => norm_num
      | cons b t =>
          rw [hl, hrest] at hs
          have hba := (List.chain'_cons.mp hs).1
          rw [if_pos (by simp)]
          simp [List.getD, List.getElem?_cons_zero, List.getElem?_cons_succ]
          linarith

theorem calculate_cnn_weight_nonneg (c : CNNPrediction) (iq : ℚ)
    (hconf : 0 ≤ c.confidence) (hgap : 0 ≤ c.get_top_confidence_gap)
    (hiq : 0 ≤ iq) : 0 ≤ calculate_cnn_weight c iq := by
  have hcomp := complexity_of_bounds c.predicted_class
  simp only [calculate_cnn_weight, pymin_eq_min]
  refine le_min ?_ (by norm_num)
  have hb : 0 ≤ min (c.get_top_confidence_gap * 0.2) 0.1 :=
    le_min (mul_nonneg hgap (by norm_num)) (by norm_num)
  have hq : 0 ≤ 0.7 + 0.3 * iq := by linarith
  have hcf : 0 ≤ 1 - complexity_of c.predicted_class * 0.2 := by linarith
  exact mul_nonneg (mul_nonneg
    (add_nonneg (mul_nonneg hconf (by norm_num)) hb) hq) hcf

theorem calculate_cnn_weight_le_one (c : CNNPrediction) (iq : ℚ) :
    calculate_cnn_weight c iq ≤ 1 := by
  simp only [calculate_cnn_weight, pymin_eq_min]
  exact min_le_right _ _

theorem calculate_kimi_weight_bounds (k : KimiPrediction)
    (c : Option CNNPrediction) :
    0.2 ≤ calculate_kimi_weight k c ∧ calculate_kimi_weight k c ≤ 1 := by
  unfold calculate_kimi_weight
  split_ifs with h
  · norm_num
  · rw [pymax_eq_max, pymin_eq_min]
    exact ⟨le_max_left _ _, max_le (by norm_num) (min_le_right _ _)⟩

theorem norm_weight_bounds (w v : ℚ) (hw : 0 ≤ w) (hv : 0.2 ≤ v) :
    0 ≤ w / (w + v) ∧ w / (w + v) ≤ 1 ∧ 0 ≤ v / (w + v) ∧
    v / (w + v) ≤ 1 ∧ w / (w + v) + v / (w + v) = 1 := by
  have htot : 0 < w + v := by linarith
  refine ⟨div_nonneg hw htot.le, ?_, div_nonneg (by linarith) htot.le, ?_, ?_⟩
  · rw [div_le_one htot]; linarith
  · rw [div_le_one htot]; linarith
  · rw [div_add_div_same, div_self htot.ne.symm]

/-! ## Score-map helper lemmas for the disagreement branch -/

theorem add_score_ne_nil (acc : List (String × ℚ)) (k : String) (v : ℚ) :
    add_score acc k v ≠ [] := by
  cases acc with
  | nil => simp [add_score]
  | cons p rest =>
      rcases p with ⟨a, b⟩
      unfold add_score
      split_ifs <;> simp

theorem add_score_of_not_mem (acc : List (String × ℚ)) (k : String) (v : ℚ)
    (h : k ∉ acc.map Prod.fst) : add_score acc k v = acc ++ [(k, v)] := by
  induction acc with
  | nil => rfl
  | cons p rest ih =>
      rcases p with ⟨a, b⟩
      simp only [List.map_cons, List.mem_cons] at h
      push_neg at h
      unfold add_score
      rw [if_neg fun hq => h.1 hq.symm, ih h.2]
      simp

theorem mem_add_score (acc : List (String × ℚ)) (k : String) (v : ℚ)
    (p : String × ℚ) (hp : p ∈ add_score acc k v) :
    p ∈ acc ∨ p = (k, v) ∨ ∃ q ∈ acc, q.1 = k ∧ p = (k, q.2 + v) := by
  induction acc with
  | nil =>
      simp only [add_score, List.mem_singleton] at hp
      exact Or.inr (Or.inl hp)
  | cons a rest ih =>
      rcases a with ⟨s, w⟩
      unfold add_score at hp
      split_ifs at hp with hc
      · rcases List.mem_cons.mp hp with h | h
        · exact Or.inr (Or.inr ⟨(s, w), by simp, hc, by rw [h, hc]⟩)
        · exact Or.inl (List.mem_cons_of_mem _ h)
      · rcases List.mem_cons.mp hp with h | h
        · exact Or.inl (by rw [h]; simp)
        · rcases ih h with h' | h' | ⟨q, hq, hqk, hqe⟩
          · exact Or.inl (List.mem_cons_of_mem _ h')
          · exact Or.inr (Or.inl h')
          · exact Or.inr (Or.inr ⟨q, List.mem_cons_of_mem _ hq, hqk, hqe⟩)

theorem foldl_add_score_eq (w : ℚ) (tk : List (String × ℚ)) :
    ∀ acc : List (String × ℚ), (tk.map Prod.fst).Nodup →
      (∀ p ∈ tk, p.1 ∉ acc.map Prod.fst) →
      tk.foldl (fun acc p => add_score acc p.1 (p.2 * w)) acc =
        acc ++ tk.map (fun p => (p.1, p.2 * w)) := by
  induction tk with
  | nil => intro acc _ _; simp
  | cons p rest ih =>
      intro acc hnd hdis
      have hnd' : (rest.map Prod.fst).Nodup :=
        (List.nodup_cons.mp (by simpa using hnd)).2
      have hhead : p.1 ∉ rest.map Prod.fst :=
        (List.nodup_cons.mp (by simpa using hnd)).1
      simp only [List.foldl_cons]
      rw [add_score_of_not_mem acc p.1 _ (hdis p (by simp))]
      rw [ih (acc ++ [(p.1, p.2 * w)]) hnd' ?_]
      · simp
      · intro q hq
        simp only [List.map_append, List.mem_append, List.map_cons,
          List.map_nil, List.mem_singleton]
        push_neg
        refine ⟨hdis q (List.mem_cons_of_mem _ hq), ?_⟩
        intro hqp
        exact hhead (hqp ▸ List.mem_map_of_mem Prod.fst hq)

theorem max_by_value_mem (l : List (String × ℚ)) (h : l ≠ []) :
    max_by_value l ∈ l := by
  induction l with
  | nil => exact absurd rfl h
  | cons p rest ih =>
      rw [show max_by_value (p :: rest) =
        if rest ≠ [] ∧ p.2 < (max_by_value rest).2 then max_by_value rest else p
        from rfl]
      split_ifs with hc
      · exact List.mem_cons_of_mem _ (ih hc.1)
      · simp

theorem disagreement_confidence_bounds (cnn_pred : CNNPrediction)
    (kimi_pred : KimiPrediction) (cw kw : ℚ)
    (hcw0 : 0 ≤ cw) (hkw0 : 0 ≤ kw) (hsum : cw + kw = 1)
    (hsc : ∀ p ∈ cnn_pred.top_k, 0 ≤ p.2 ∧ p.2 ≤ 1)
    (hnd : (cnn_pred.top_k.map Prod.fst).Nodup) :
    0 ≤ (max_by_value (disagreement_scores cnn_pred kimi_pred cw kw)).2 ∧
    (max_by_value (disagreement_scores cnn_pred kimi_pred cw kw)).2 ≤ 1 := by
  have hscores : disagreement_scores cnn_pred kimi_pred cw kw =
      add_score (cnn_pred.top_k.map fun p => (p.1, p.2 * cw))
        kimi_pred.predicted_class (0.8 * kw) := by
    rw [disagreement_scores, foldl_add_score_eq cw cnn_pred.top_k [] hnd (by simp)]
    simp
  have hb0 : ∀ p ∈ cnn_pred.top_k.map (fun p => (p.1, p.2 * cw)),
      0 ≤ p.2 ∧ p.2 ≤ cw := by
    intro p hp
    simp only [List.mem_map] at hp
    obtain ⟨q, hq, rfl⟩ := hp
    have hqb := hsc q hq
    refine ⟨mul_nonneg hqb.1 hcw0, ?_⟩
    calc q.2 * cw ≤ 1 * cw := mul_le_mul_of_nonneg_right hqb.2 hcw0
      _ = cw := one_mul cw
  have hmem : max_by_value (disagreement_scores cnn_pred kimi_pred cw kw) ∈
      add_score (cnn_pred.top_k.map fun p => (p.1, p.2 * cw))
        kimi_pred.predicted_class (0.8 * kw) := by
    rw [← hscores]
    exact max_by_value_mem _ (hscores ▸ add_score_ne_nil _ _ _)
  rcases mem_add_score _ _ _ _ hmem with h | h | ⟨q, hq, _, hqe⟩
  · have := hb0 _ h
    exact ⟨this.1, by linarith⟩
  · rw [h]
    constructor
    · simpa using mul_nonneg (by norm_num) hkw0
    · simp only []
      linarith
  · have hqb := hb0 q hq
    rw [hqe]
    constructor
    · simpa using add_nonneg hqb.1 (mul_nonneg (by norm_num) hkw0)
    · simp only []
      linarith

/-! ## Per-branch confidence bounds -/

theorem cnn_only_conf_bounds (c : CNNPrediction)
    (h : 0 ≤ c.confidence ∧ c.confidence ≤ 1) :
    0 ≤ (cnn_only_result c).confidence ∧ (cnn_only_result c).confidence ≤ 1 := by
  unfold cnn_only_result
  split_ifs <;> constructor <;> simp only [] <;> linarith [h.1, h.2]

theorem kimi_only_conf_bounds (k : KimiPrediction) :
    0 ≤ (kimi_only_result k).confidence ∧ (kimi_only_result k).confidence ≤ 1 := by
  unfold kimi_only_result
  split_ifs <;> norm_num

theorem ensemble_both_weight_facts (cnn_pred : CNNPrediction)
    (kimi_pred : KimiPrediction) (iq : ℚ)
    (hconf : 0 ≤ cnn_pred.confidence)
    (hsorted : cnn_pred.top_k.Chain' (fun a b => b.2 ≤ a.2))
    (hiq : 0 ≤ iq) :
    0 ≤ calculate_cnn_weight cnn_pred iq /
        (calculate_cnn_weight cnn_pred iq +
          calculate_kimi_weight kimi_pred (some cnn_pred)) ∧
    calculate_cnn_weight cnn_pred iq /
        (calculate_cnn_weight cnn_pred iq +
          calculate_kimi_weight kimi_pred (some cnn_pred)) ≤ 1 ∧
    0 ≤ calculate_kimi_weight kimi_pred (some cnn_pred) /
        (calculate_cnn_weight cnn_pred iq +
          calculate_kimi_weight kimi_pred (some cnn_pred)) ∧
    calculate_kimi_weight kimi_pred (some cnn_pred) /
        (calculate_cnn_weight cnn_pred iq +
          calculate_kimi_weight kimi_pred (some cnn_pred)) ≤ 1 ∧
    calculate_cnn_weight cnn_pred iq /
        (calculate_cnn_weight cnn_pred iq +
          calculate_kimi_weight kimi_pred (some cnn_pred)) +
      calculate_kimi_weight kimi_pred (some cnn_pred) /
        (calculate_cnn_weight cnn_pred iq +
          calculate_kimi_weight kimi_pred (some cnn_pred)) = 1 :=
  norm_weight_bounds _ _
    (calculate_cnn_weight_nonneg cnn_pred iq hconf (gap_nonneg cnn_pred hsorted) hiq)
    (calculate_kimi_weight_bounds kimi_pred (some cnn_pred)).1

theorem ensemble_both_conf_bounds (cnn_pred : CNNPrediction)
    (kimi_pred : KimiPrediction) (iq : ℚ)
    (hconf : 0 ≤ cnn_pred.confidence ∧ cnn_pred.confidence ≤ 1)
    (hsc : ∀ p ∈ cnn_pred.top_k, 0 ≤ p.2 ∧ p.2 ≤ 1)
    (hsorted : cnn_pred.top_k.Chain' (fun a b => b.2 ≤ a.2))
    (hnd : (cnn_pred.top_k.map Prod.fst).Nodup)
    (hiq : 0 ≤ iq) :
    0 ≤ (ensemble_both cnn_pred kimi_pred iq).confidence ∧
    (ensemble_both cnn_pred kimi_pred iq).confidence ≤ 1 := by
  have hw := ensemble_both_weight_facts cnn_pred kimi_pred iq hconf.1 hsorted hiq
  unfold ensemble_both
  split_ifs with h1 h2 h3
  · constructor <;> simp only [] <;> linarith [hconf.1, hconf.2]
  · norm_num
  · simp only [pymin_eq_min, pymax_eq_max]
    have hmaxr := le_max_right cnn_pred.confidence (0.75 : ℚ)
    have hminl := min_le_left (0.95 : ℚ) (max cnn_pred.confidence 0.75 + 0.15)
    constructor
    · rw [le_min_iff]
      exact ⟨by norm_num, by linarith⟩
    · linarith
  · exact disagreement_confidence_bounds cnn_pred kimi_pred _ _
      hw.1 hw.2.2.1 hw.2.2.2.2 hsc hnd

/-! ## C5: confidence stays in [0,1] — corrected -/

/-- C5 counterexample: with every scalar input inside the claim's
declared ranges (classifier confidence 0, top-k scores 0 and 1,
reasoning quality 0, image quality 1) but a top-k that is not sorted
descending, the disagreement branch produces confidence `12/11 > 1`:
the negative separation bonus makes the raw classifier weight negative,
and the normalized language-model weight exceeds 1. -/
theorem claim_C5_counterexample :
    0 ≤ cnnCE5.confidence ∧ cnnCE5.confidence ≤ 1 ∧
    0 ≤ kimiCE5.reasoning_quality ∧ kimiCE5.reasoning_quality ≤ 1 ∧
    decide_ensemble (some cnnCE5) (some kimiCE5) 1 =
      Except.ok (ensemble_both cnnCE5 kimiCE5 1) ∧
    (ensemble_both cnnCE5 kimiCE5 1).confidence = 12/11 ∧
    ¬ (ensemble_both cnnCE5 kimiCE5 1).confidence ≤ 1 := by
  have hk : is_kimi_healthy kimiCE5 = false := by decide
  have hwc : calculate_cnn_weight cnnCE5 1 = -9/50 := by
    simp [calculate_cnn_weight, cnnCE5, CNNPrediction.get_top_confidence_gap,
      complexity_of, class_complexity, List.lookup, pymin,
      List.getD, List.getElem?_cons_zero, List.getElem?_cons_succ]
    norm_num
  have hwk : calculate_kimi_weight kimiCE5 (some cnnCE5) = 27/40 := by
    simp [calculate_kimi_weight, cnnCE5, kimiCE5, complexity_of, class_complexity,
      List.lookup, pymin, pymax]
    norm_num
  have hcw : calculate_cnn_weight cnnCE5 1 /
      (calculate_cnn_weight cnnCE5 1 + calculate_kimi_weight kimiCE5 (some cnnCE5)) =
      -4/11 := by
    rw [hwc, hwk]
    norm_num
  have hkw : calculate_kimi_weight kimiCE5 (some cnnCE5) /
      (calculate_cnn_weight cnnCE5 1 + calculate_kimi_weight kimiCE5 (some cnnCE5)) =
      15/11 := by
    rw [hwc, hwk]
    norm_num
  have hscores : disagreement_scores cnnCE5 kimiCE5 (-4/11) (15/11) =
      [("A", 0), ("B", -4/11), ("C", 12/11)] := by
    simp [disagreement_scores, cnnCE5, kimiCE5, add_score]
    norm_num
  have hmax : max_by_value [("A", (0:ℚ)), ("B", -4/11), ("C", 12/11)] =
      ("C", 12/11) := by
    simp [max_by_value]
    norm_num
  have hconf : (ensemble_both cnnCE5 kimiCE5 1).confidence = 12/11 := by
    have hne : cnnCE5.predicted_class ≠ kimiCE5.predicted_class := by decide
    simp only [ensemble_both, hk, Bool.false_eq_true, if_false, if_neg hne,
      hcw, hkw, hscores, hmax]
  refine ⟨by norm_num [cnnCE5], by norm_num [cnnCE5],
    by norm_num [kimiCE5], by norm_num [kimiCE5], rfl, hconf, ?_⟩
  rw [hconf]
  norm_num

/-- C5 (amended): for every decision produced by `decide_ensemble` from
inputs satisfying the declared ranges **and whose classifier top-k is
well-formed as the data model declares it (scores descending,
pairwise-distinct labels)**, the confidence lies in [0,1] in every
branch, including the accumulated-score disagreement branch. -/
theorem claim_C5_amended (cnn_pred : Option CNNPrediction)
    (kimi_pred : Option KimiPrediction) (iq : ℚ) (r : EnsembleResult)
    (hcnn : ∀ c ∈ cnn_pred, c.in_ranges ∧ c.topk_wellformed)
    (hkimi : ∀ k ∈ kimi_pred, 0 ≤ k.reasoning_quality ∧ k.reasoning_quality ≤ 1)
    (hiq : 0 ≤ iq ∧ iq ≤ 1)
    (hok : decide_ensemble cnn_pred kimi_pred iq = Except.ok r) :
    0 ≤ r.confidence ∧ r.confidence ≤ 1 := by
  cases cnn_pred with
  | none =>
      cases kimi_pred with
      | none => simp [decide_ensemble] at hok
      | some k =>
          simp only [decide_ensemble, Except.ok.injEq] at hok
          rw [← hok]
          exact kimi_only_conf_bounds k
  | some c =>
      have hc := hcnn c (by simp)
      obtain ⟨⟨hc0, hc1, hsc⟩, hsorted, hnd⟩ := hc
      cases kimi_pred with
      | none =>
          simp only [decide_ensemble, Except.ok.injEq] at hok
          rw [← hok]
          exact cnn_only_conf_bounds c ⟨hc0, hc1⟩
      | some k =>
          simp only [decide_ensemble, Except.ok.injEq] at hok
          rw [← hok]
          exact ensemble_both_conf_bounds c k iq ⟨hc0, hc1⟩ hsc hsorted hnd hiq.1

/-- C5 witness: the amended bound instantiated on a well-formed
disagreeing input pair. -/
theorem claim_C5_witness :
    (cnnV.in_ranges ∧ cnnV.topk_wellformed) ∧
    (0 ≤ kimiV.reasoning_quality ∧ kimiV.reasoning_quality ≤ 1) ∧
    ((0 : ℚ) ≤ 1 ∧ (1 : ℚ) ≤ 1) ∧
    decide_ensemble (some cnnV) (some kimiV) 1 =
      Except.ok (ensemble_both cnnV kimiV 1) ∧
    (0 ≤ (ensemble_both cnnV kimiV 1).confidence ∧
      (ensemble_both cnnV kimiV 1).confidence ≤ 1) := by
  have hv : cnnV.in_ranges ∧ cnnV.topk_wellformed := by
    refine ⟨⟨by norm_num [cnnV], by norm_num [cnnV], ?_⟩, ?_, by decide⟩
    · intro p hp
      fin_cases hp <;> norm_num [cnnV]
    · norm_num [cnnV, List.chain'_cons]
  have hk : 0 ≤ kimiV.reasoning_quality ∧ kimiV.reasoning_quality ≤ 1 := by
    norm_num [kimiV]
  exact ⟨hv, hk, by norm_num,  rfl,
    claim_C5_amended (some cnnV) (some kimiV) 1 _
      (fun c hc => by rw [Option.mem_def, Option.some.injEq] at hc; rw [← hc]; exact hv)
      (fun k hk2 => by rw [Option.mem_def, Option.some.injEq] at hk2; rw [← hk2]; exact hk)
      (by norm_num) rfl⟩

/-! ## C6: ensemble weights are in [0,1] and sum to 1 -/

/-- C6: for every decision whose source is the ensemble branch (both
predictions present, classifier inputs within the data model's declared
constraints), both reported weights lie in [0,1] and sum to exactly 1 —
on the normalized path and on the fixed-weight healthy-override paths
alike (the rational model makes the float-tolerance sum exact). -/
theorem claim_C6_ensemble_weights (cnn_pred : CNNPrediction)
    (kimi_pred : KimiPrediction) (iq : ℚ)
    (hconf : 0 ≤ cnn_pred.confidence)
    (hsorted : cnn_pred.top_k.Chain' (fun a b => b.2 ≤ a.2))
    (hiq : 0 ≤ iq) :
    (ensemble_both cnn_pred kimi_pred iq).source = DiagnosisSource.ensemble ∧
    0 ≤ (ensemble_both cnn_pred kimi_pred iq).cnn_weight ∧
    (ensemble_both cnn_pred kimi_pred iq).cnn_weight ≤ 1 ∧
    0 ≤ (ensemble_both cnn_pred kimi_pred iq).kimi_weight ∧
    (ensemble_both cnn_pred kimi_pred iq).kimi_weight ≤ 1 ∧
    (ensemble_both cnn_pred kimi_pred iq).cnn_weight +
      (ensemble_both cnn_pred kimi_pred iq).kimi_weight = 1 := by
  have hw := ensemble_both_weight_facts cnn_pred kimi_pred iq hconf hsorted hiq
  unfold ensemble_both
  split_ifs with h1 h2 h3
  · refine ⟨rfl, ?_, ?_, ?_, ?_, ?_⟩ <;> norm_num
  · refine ⟨rfl, ?_, ?_, ?_, ?_, ?_⟩ <;> norm_num
  · exact ⟨rfl, hw.1, hw.2.1, hw.2.2.1, hw.2.2.2.1, hw.2.2.2.2⟩
  · exact ⟨rfl, hw.1, hw.2.1, hw.2.2.1, hw.2.2.2.1, hw.2.2.2.2⟩

/-- C6 witness: the weight facts instantiated on a concrete well-formed
input pair. -/
theorem claim_C6_witness :
    0 ≤ cnnV.confidence ∧
    cnnV.top_k.Chain' (fun a b => b.2 ≤ a.2) ∧
    ((ensemble_both cnnV kimiV 1).source = DiagnosisSource.ensemble ∧
     0 ≤ (ensemble_both cnnV kimiV 1).cnn_weight ∧
     (ensemble_both cnnV kimiV 1).cnn_weight ≤ 1 ∧
     0 ≤ (ensemble_both cnnV kimiV 1).kimi_weight ∧
     (ensemble_both cnnV kimiV 1).kimi_weight ≤ 1 ∧
     (ensemble_both cnnV kimiV 1).cnn_weight +
       (ensemble_both cnnV kimiV 1).kimi_weight = 1) :=
  ⟨by norm_num [cnnV], by norm_num [cnnV, List.chain'_cons],
    claim_C6_ensemble_weights cnnV kimiV 1 (by norm_num [cnnV])
      (by norm_num [cnnV, List.chain'_cons]) (by norm_num)⟩

end PlantDiagnosis
